import Mathlib

/-!
Verification of the `rpad` string-padding function of
`src/datafusion/functions/src/unicode/rpad.rs`.

Modelling choices:
* A string is a list of Unicode code points (`List Char`); `s.chars()` of the
  source is then the list itself.
* Grapheme segmentation (`string.graphemes(true)` from the external
  `unicode_segmentation` crate) is an explicit parameter
  `g : Graphemes`.  A genuine segmentation satisfies `GraphemesValid g`:
  concatenating the clusters of `s` gives back `s`.
* A nullable value is an `Option`, a text column a `List (Option Str)`,
  the length column a `List (Option Int)` (64-bit signed values; the only
  bound the code tests is `i32::MAX`, kept exact here).
* Fallible row processing returns `Except RpadError`; the row-wise
  `collect::<Result<_>>` short-circuits at the first error, mirrored by
  `collectResults`.
-/

/-- A string value: its list of Unicode code points. -/
abbrev Str := List Char

/-- A grapheme segmentation: splits a string into extended grapheme clusters. -/
abbrev Graphemes := Str → List Str

/-- A genuine segmentation: concatenating the clusters restores the string
(the defining contract of `unicode_segmentation`). -/
def GraphemesValid (g : Graphemes) : Prop := ∀ s : Str, (g s).flatten = s

/-- `i32::MAX` as a 64-bit signed integer, the bound tested by `process_rpad!`. -/
def i32Max : Int := 2147483647

/-- The error raised by `process_rpad!`:
`exec_err!("rpad requested length {} too large", length)`. -/
inductive RpadError where
  | requestedLengthTooLarge (length : Int)
deriving DecidableEq, Repr

/-- The clamped target length:
`let length = if length < 0 { 0 } else { length as usize };`. -/
def clampLen (length : Int) : Nat := if length < 0 then 0 else length.toNat

/-- Per-row body of the two-argument arm of `process_rpad!`
(rpad.rs lines 124-151). -/
def rpad2Row (g : Graphemes) (string : Option Str) (length : Option Int) :
    Except RpadError (Option Str) :=
  match string, length with
  | some string, some length =>
    if i32Max < length then
      .error (.requestedLengthTooLarge length)
    else if clampLen length = 0 then
      .ok (some [])
    else if clampLen length < (g string).length then
      .ok (some (((g string).take (clampLen length)).flatten))
    else
      .ok (some (string ++ List.replicate (clampLen length - (g string).length) ' '))
  | _, _ => .ok none

/-- Per-row body of the three-argument arm of `process_rpad!`
(rpad.rs lines 154-185).  `fill.chars()` is the fill list itself; the
index `l % fill.length` is always in bounds in the branch where it is
used (the fill is non-empty there), so `getD` never takes its default. -/
def rpad3Row (g : Graphemes) (string : Option Str) (length : Option Int)
    (fill : Option Str) : Except RpadError (Option Str) :=
  match string, length, fill with
  | some string, some length, some fill =>
    if i32Max < length then
      .error (.requestedLengthTooLarge length)
    else if clampLen length < (g string).length then
      .ok (some (((g string).take (clampLen length)).flatten))
    else if fill.isEmpty then
      .ok (some string)
    else
      .ok (some (string ++ (List.range (clampLen length - (g string).length)).map
        (fun l => fill.getD (l % fill.length) ' ')))
  | _, _, _ => .ok none

/-- `Iterator::collect::<Result<GenericStringArray<_>>>`: succeed with the
list of row results, or stop at the first row error. -/
def collectResults {α : Type} : List (Except RpadError α) → Except RpadError (List α)
  | [] => .ok []
  | .error e :: _ => .error e
  | .ok a :: rest => (collectResults rest).map (a :: ·)

/-- The two-argument row-wise driver: zip the source and length columns and
collect per-row results (truncating to the shorter column, as `zip` does). -/
def rpad2 (g : Graphemes) (strings : List (Option Str)) (lengths : List (Option Int)) :
    Except RpadError (List (Option Str)) :=
  collectResults ((strings.zip lengths).map (fun p => rpad2Row g p.1 p.2))

/-- The three-argument row-wise driver: `string.iter().zip(length).zip(fill)`. -/
def rpad3 (g : Graphemes) (strings : List (Option Str)) (lengths : List (Option Int))
    (fills : List (Option Str)) : Except RpadError (List (Option Str)) :=
  collectResults (((strings.zip lengths).zip fills).map
    (fun p => rpad3Row g p.1.1 p.1.2 p.2))

/-- The three text storage variants accepted by `rpad`'s signature. -/
inductive TextVariant where
  | utf8
  | largeUtf8
  | utf8View
deriving DecidableEq, Repr

/-- An offset width: the `OffsetSizeTrait` instantiation of a
`GenericStringArray`. -/
inductive OffsetWidth where
  | i32
  | i64
deriving DecidableEq, Repr

/-- The `StringArrayLen` type parameter chosen by `RPadFunc::invoke`
(rpad.rs lines 86-119): `none` is the 2-argument call, `some fillTy` the
3-argument call.  The result column built by `process_rpad!` is a
`GenericStringArray<StringArrayLen>`, so this type parameter is the
storage width of the result column. -/
def rpadStringArrayLen (src : TextVariant) (fill : Option TextVariant) : OffsetWidth :=
  match fill with
  | none =>
    match src with
    | .utf8 | .utf8View => .i32
    | .largeUtf8 => .i64
  | some fillTy =>
    match src, fillTy with
    | .utf8, .utf8 | .utf8, .utf8View | .utf8View, .utf8 | .utf8View, .utf8View => .i32
    | .largeUtf8, .largeUtf8 => .i64
    | .largeUtf8, .utf8View | .largeUtf8, .utf8 => .i64
    | .utf8, .largeUtf8 | .utf8View, .largeUtf8 => .i32

/-- The storage variant of a `GenericStringArray<w>`: `i32` offsets are the
narrow (`Utf8`) variant, `i64` offsets the wide (`LargeUtf8`) variant. -/
def genericStringVariant : OffsetWidth → TextVariant
  | .i32 => .utf8
  | .i64 => .largeUtf8

/-- The spec's promotion rule, stated in its own words for comparison with
the code's dispatch: "if any participating text column uses the wide-offset
variant, the result uses wide-offset; otherwise narrow-offset". -/
def specPromotedVariant (src : TextVariant) (fill : Option TextVariant) : TextVariant :=
  if src = .largeUtf8 ∨ fill = some .largeUtf8 then .largeUtf8 else .utf8

/-- A simple genuine segmentation used to instantiate theorems on concrete
inputs: every code point is its own cluster (correct for strings without
combining characters). -/
def charSeg : Graphemes := fun s => s.map (fun c => [c])

/-- The combining acute accent U+0301. -/
def combiningAcute : Char := Char.ofNat 0x301

/-- Modelled from the spec: extended grapheme clustering, whose
implementation (`unicode_segmentation::UnicodeSegmentation::graphemes`)
is an external library, absent from src/.  Per the spec's glossary, a
grapheme is "a user-perceived character, possibly composed of multiple
underlying code points (e.g., a base letter plus combining accent)".
This model covers the spec's own example: a combining acute (U+0301)
joins the preceding cluster; every other code point opens a new one. -/
def specGraphemes (s : Str) : List Str :=
  s.foldl (fun acc c =>
    if c = combiningAcute ∧ acc ≠ [] then acc.dropLast ++ [acc.getLast! ++ [c]]
    else acc ++ [[c]]) []

theorem charSeg_valid : GraphemesValid charSeg := by
  intro s
  induction s with
  | nil => rfl
  | cons c rest ih => simp [charSeg] at ih ⊢; exact ih

theorem clampLen_of_nonneg {L : Int} (h : 0 ≤ L) : clampLen L = L.toNat := by
  unfold clampLen
  rw [if_neg (by omega)]

theorem clampLen_of_nonpos {L : Int} (h : L ≤ 0) : clampLen L = 0 := by
  unfold clampLen
  by_cases hL : L < 0
  · rw [if_pos hL]
  · rw [if_neg hL]
    omega

theorem rpad2Row_ok_of_le (g : Graphemes) (s : Str) (L : Int) (h : ¬ i32Max < L) :
    ∃ r, rpad2Row g (some s) (some L) = .ok r := by
  simp only [rpad2Row]
  rw [if_neg h]
  by_cases h1 : clampLen L = 0
  · exact ⟨_, by rw [if_pos h1]⟩
  · rw [if_neg h1]
    by_cases h2 : clampLen L < (g s).length
    · exact ⟨_, by rw [if_pos h2]⟩
    · exact ⟨_, by rw [if_neg h2]⟩

theorem rpad3Row_ok_of_le (g : Graphemes) (s f : Str) (L : Int) (h : ¬ i32Max < L) :
    ∃ r, rpad3Row g (some s) (some L) (some f) = .ok r := by
  simp only [rpad3Row]
  rw [if_neg h]
  by_cases h1 : clampLen L < (g s).length
  · exact ⟨_, by rw [if_pos h1]⟩
  · rw [if_neg h1]
    by_cases h2 : f.isEmpty
    · exact ⟨_, by rw [if_pos h2]⟩
    · exact ⟨_, by rw [if_neg h2]⟩

/-- **C1** (amended): the result column's storage variant is decided by the
source column alone — wide-offset exactly when the source column is
wide-offset (`LargeUtf8`), narrow-offset (`Utf8`) otherwise, for the
2-argument form and for every fill variant of the 3-argument form.  The
fill column's variant never influences the result variant. -/
theorem rpad_result_variant_from_source (src : TextVariant) (fill : Option TextVariant) :
    genericStringVariant (rpadStringArrayLen src fill) =
      (if src = TextVariant.largeUtf8 then TextVariant.largeUtf8 else TextVariant.utf8) := by
  cases fill with
  | none => cases src <;> rfl
  | some f => cases src <;> cases f <;> rfl

/-- **C1** counterexample: a narrow-offset (`Utf8`) source with a
wide-offset (`LargeUtf8`) fill is dispatched by `RPadFunc::invoke` to
`rpad::<i32, i64>`, whose result column is a `GenericStringArray<i32>` —
the narrow variant — while the claimed promotion rule demands the wide
variant. -/
theorem rpad_result_variant_counterexample :
    genericStringVariant (rpadStringArrayLen TextVariant.utf8 (some TextVariant.largeUtf8)) =
      TextVariant.utf8 ∧
    specPromotedVariant TextVariant.utf8 (some TextVariant.largeUtf8) =
      TextVariant.largeUtf8 := by
  exact ⟨rfl, by decide⟩

/-- **C3**: null propagation — whenever the source is null, the length is
null, or (3-argument form) the fill is null, the row's result is null,
with no further processing of the row and regardless of the other
values. -/
theorem rpad_null_propagation (g : Graphemes) (os : Option Str) (ol : Option Int)
    (ofl : Option Str) :
    rpad2Row g none ol = .ok none ∧
    rpad2Row g os none = .ok none ∧
    rpad3Row g none ol ofl = .ok none ∧
    rpad3Row g os none ofl = .ok none ∧
    rpad3Row g os ol none = .ok none := by
  refine ⟨?_, ?_, ?_, ?_, ?_⟩ <;> cases os <;> cases ol <;> cases ofl <;> rfl

/-- **C10**: the null check is decided before the range check — a row with
null source (or, 3-argument form, null fill) yields a null result and no
`RequestedLengthTooLarge` error, whatever its length value (`L` below is
arbitrary, in particular it may exceed `i32Max`); and a length of exactly
`i32Max = 2147483647` never triggers the error in either form. -/
theorem rpad_null_checked_before_range (g : Graphemes) (L : Int) (s f : Str) :
    rpad2Row g none (some L) = .ok none ∧
    rpad3Row g none (some L) (some f) = .ok none ∧
    rpad3Row g (some s) (some L) none = .ok none ∧
    (∃ r, rpad2Row g (some s) (some i32Max) = .ok r) ∧
    (∃ r, rpad3Row g (some s) (some i32Max) (some f) = .ok r) :=
  ⟨rfl, rfl, rfl, rpad2Row_ok_of_le g s i32Max (lt_irrefl i32Max),
    rpad3Row_ok_of_le g s f i32Max (lt_irrefl i32Max)⟩

theorem rpad3Row_pad_nonempty (g : Graphemes) (s f : Str) (L : Int)
    (h0 : 0 ≤ L) (hmax : L ≤ i32Max) (hge : (g s).length ≤ L.toNat) (hf : f ≠ []) :
    rpad3Row g (some s) (some L) (some f) =
      .ok (some (s ++ (List.range (L.toNat - (g s).length)).map
        (fun i => f.getD (i % f.length) ' '))) := by
  have hmax' : ¬ i32Max < L := by simp only [i32Max] at hmax ⊢; omega
  simp only [rpad3Row]
  rw [if_neg hmax', clampLen_of_nonneg h0,
    if_neg (by omega : ¬ L.toNat < (g s).length),
    if_neg (by simpa using hf : ¬ f.isEmpty = true)]

theorem rpad3Row_pad_empty_fill (g : Graphemes) (s : Str) (L : Int)
    (h0 : 0 ≤ L) (hmax : L ≤ i32Max) (hge : (g s).length ≤ L.toNat) :
    rpad3Row g (some s) (some L) (some []) = .ok (some s) := by
  have hmax' : ¬ i32Max < L := by simp only [i32Max] at hmax ⊢; omega
  simp only [rpad3Row]
  rw [if_neg hmax', clampLen_of_nonneg h0,
    if_neg (by omega : ¬ L.toNat < (g s).length),
    if_pos (show ([] : Str).isEmpty = true from rfl)]

/-- **C4**: 3-argument padding — with all values present, `0 ≤ L ≤ i32Max`
and at least as many requested characters as source graphemes, an empty
fill returns the source unchanged, and otherwise the result is the source
followed by exactly `L.toNat - grapheme-count` characters, the `i`-th
being `fill[i % fill.length]` at code-point granularity. -/
theorem rpad3Row_padding (g : Graphemes) (s f : Str) (L : Int)
    (h0 : 0 ≤ L) (hmax : L ≤ i32Max) (hge : (g s).length ≤ L.toNat) :
    rpad3Row g (some s) (some L) (some f) =
      .ok (some (if f = [] then s
        else s ++ (List.range (L.toNat - (g s).length)).map
          (fun i => f.getD (i % f.length) ' '))) := by
  by_cases hf : f = []
  · subst hf
    rw [if_pos rfl]
    exact rpad3Row_pad_empty_fill g s L h0 hmax hge
  · rw [if_neg hf]
    exact rpad3Row_pad_nonempty g s f L h0 hmax hge hf

/-- Witness for C4 on `rpad('hi', 5, 'xy')`. -/
theorem rpad3Row_padding_witness :
    (0:Int) ≤ 5 ∧ (5:Int) ≤ i32Max ∧ (charSeg ['h','i']).length ≤ (5:Int).toNat ∧
    rpad3Row charSeg (some ['h','i']) (some 5) (some ['x','y']) =
      .ok (some (if (['x','y'] : Str) = [] then ['h','i']
        else ['h','i'] ++ (List.range ((5:Int).toNat - (charSeg ['h','i']).length)).map
          (fun i => (['x','y'] : Str).getD (i % (['x','y'] : Str).length) ' '))) :=
  ⟨by norm_num, by norm_num [i32Max], by decide,
    rpad3Row_padding charSeg ['h','i'] ['x','y'] 5 (by norm_num) (by norm_num [i32Max])
      (by decide)⟩

/-- **C5**: truncation — with non-null inputs, `0 ≤ L ≤ i32Max` and `L` at
most the grapheme count, both forms return exactly the concatenation of
the first `L.toNat` grapheme clusters of the source. -/
theorem rpad_truncation (g : Graphemes) (s f : Str) (L : Int)
    (h0 : 0 ≤ L) (hmax : L ≤ i32Max) (hle : L.toNat ≤ (g s).length)
    (hg : (g s).flatten = s) :
    rpad2Row g (some s) (some L) = .ok (some (((g s).take L.toNat).flatten)) ∧
    rpad3Row g (some s) (some L) (some f) = .ok (some (((g s).take L.toNat).flatten)) := by
  have hmax' : ¬ i32Max < L := by simp only [i32Max] at hmax ⊢; omega
  constructor
  · simp only [rpad2Row]
    rw [if_neg hmax', clampLen_of_nonneg h0]
    by_cases hz : L.toNat = 0
    · rw [if_pos hz, hz, List.take_zero, List.flatten_nil]
    · rw [if_neg hz]
      by_cases hlt : L.toNat < (g s).length
      · rw [if_pos hlt]
      · rw [if_neg hlt]
        have heq : L.toNat = (g s).length := by omega
        rw [heq, List.take_length, hg]
        simp
  · simp only [rpad3Row]
    rw [if_neg hmax', clampLen_of_nonneg h0]
    by_cases hlt : L.toNat < (g s).length
    · rw [if_pos hlt]
    · rw [if_neg hlt]
      have heq : L.toNat = (g s).length := by omega
      by_cases hf : f.isEmpty
      · rw [if_pos hf, heq, List.take_length, hg]
      · rw [if_neg hf, heq, List.take_length, hg]
        simp

/-- Witness for C5 on `rpad('hi', 1)` and `rpad('hi', 1, 'x')`. -/
theorem rpad_truncation_witness :
    (0:Int) ≤ 1 ∧ (1:Int) ≤ i32Max ∧ (1:Int).toNat ≤ (charSeg ['h','i']).length ∧
    (charSeg ['h','i']).flatten = ['h','i'] ∧
    (rpad2Row charSeg (some ['h','i']) (some 1) =
      .ok (some (((charSeg ['h','i']).take (1:Int).toNat).flatten)) ∧
    rpad3Row charSeg (some ['h','i']) (some 1) (some ['x']) =
      .ok (some (((charSeg ['h','i']).take (1:Int).toNat).flatten))) :=
  ⟨by norm_num, by norm_num [i32Max], by decide, by decide,
    rpad_truncation charSeg ['h','i'] ['x'] 1 (by norm_num) (by norm_num [i32Max])
      (by decide) (by decide)⟩

/-- **C6**: 2-argument padding — with non-null source and an in-range
length at least the grapheme count (hence non-negative), the result is
the source followed by exactly `L.toNat - grapheme-count` spaces. -/
theorem rpad2Row_padding (g : Graphemes) (s : Str) (L : Int)
    (hmax : L ≤ i32Max) (hge : ((g s).length : Int) ≤ L) (hg : (g s).flatten = s) :
    rpad2Row g (some s) (some L) =
      .ok (some (s ++ List.replicate (L.toNat - (g s).length) ' ')) := by
  have h0 : 0 ≤ L := by omega
  have hmax' : ¬ i32Max < L := by simp only [i32Max] at hmax ⊢; omega
  simp only [rpad2Row]
  rw [if_neg hmax', clampLen_of_nonneg h0]
  by_cases hz : L.toNat = 0
  · rw [if_pos hz, hz]
    have hlen : (g s).length = 0 := by omega
    have hnil : g s = [] := List.length_eq_zero.mp hlen
    have hs : s = [] := by have h1 := hg; rw [hnil] at h1; simpa using h1.symm
    rw [hlen]
    simp [hs]
  · rw [if_neg hz, if_neg (by omega : ¬ L.toNat < (g s).length)]

/-- Witness for C6 on `rpad('hi', 5)`. -/
theorem rpad2Row_padding_witness :
    (5:Int) ≤ i32Max ∧ ((charSeg ['h','i']).length : Int) ≤ 5 ∧
    (charSeg ['h','i']).flatten = ['h','i'] ∧
    rpad2Row charSeg (some ['h','i']) (some 5) =
      .ok (some (['h','i'] ++ List.replicate ((5:Int).toNat - (charSeg ['h','i']).length) ' ')) :=
  ⟨by norm_num [i32Max], by decide, by decide,
    rpad2Row_padding charSeg ['h','i'] 5 (by norm_num [i32Max]) (by decide) (by decide)⟩

/-- **C7** (amended): with all values present, a non-empty fill and an
in-range length at least the grapheme count, the result's *code-point*
length is `s.length + (L.toNat - grapheme-count)`; this equals `L`
exactly when the source's code-point count equals its grapheme count
(hypothesis `hcs`).  When a grapheme of the source spans several code
points — or a fill character merges into a preceding cluster — the
original claim's "grapheme/character length equals `length`" fails, see
the counterexample. -/
theorem rpad3Row_padded_length (g : Graphemes) (s f : Str) (L : Int)
    (hmax : L ≤ i32Max) (hge : ((g s).length : Int) ≤ L) (hf : f ≠ [])
    (hcs : (g s).length = s.length) :
    ∃ r, rpad3Row g (some s) (some L) (some f) = .ok (some r) ∧ (r.length : Int) = L := by
  have h0 : 0 ≤ L := by omega
  refine ⟨_, rpad3Row_pad_nonempty g s f L h0 hmax (by omega) hf, ?_⟩
  simp only [List.length_append, List.length_map, List.length_range]
  omega

/-- Witness for the amended C7 on `rpad('hi', 5, 'xy')`. -/
theorem rpad3Row_padded_length_witness :
    (5:Int) ≤ i32Max ∧ ((charSeg ['h','i']).length : Int) ≤ 5 ∧ (['x','y'] : Str) ≠ [] ∧
    (charSeg ['h','i']).length = (['h','i'] : Str).length ∧
    (∃ r, rpad3Row charSeg (some ['h','i']) (some 5) (some ['x','y']) = .ok (some r) ∧
      (r.length : Int) = 5) :=
  ⟨by norm_num [i32Max], by decide, by simp, by decide,
    rpad3Row_padded_length charSeg ['h','i'] ['x','y'] 5 (by norm_num [i32Max]) (by decide)
      (by simp) (by decide)⟩

/-- **C7** counterexample: the source `"e" + U+0301` is two code points
forming one grapheme cluster.  With `length = 3` and fill `U+0301`, the
row succeeds and returns a four-code-point string that is a single
grapheme cluster — neither its character length (4) nor its grapheme
length (1) equals the requested length 3, although the length is
in range, the fill is non-empty, and `grapheme-count(source) = 1 ≤ 3`. -/
theorem rpad3Row_padded_length_counterexample :
    rpad3Row specGraphemes (some ['e', combiningAcute]) (some 3) (some [combiningAcute]) =
      .ok (some ['e', combiningAcute, combiningAcute, combiningAcute]) ∧
    (['e', combiningAcute, combiningAcute, combiningAcute] : Str).length = 4 ∧
    (specGraphemes ['e', combiningAcute, combiningAcute, combiningAcute]).length = 1 ∧
    ((specGraphemes ['e', combiningAcute]).length : Int) ≤ 3 ∧
    ([combiningAcute] : Str) ≠ [] ∧ (3 : Int) ≤ i32Max := by
  refine ⟨by rfl, by rfl, by rfl, by norm_num [show (specGraphemes ['e', combiningAcute]).length = 1 from rfl], by simp, by norm_num [i32Max]⟩

/-- **C8**: non-positive lengths — with non-null inputs and `L ≤ 0`
(negative lengths clamp to zero), both the 2-argument form and the
3-argument form return the empty string, for every source (including
combining-character-only sources) and every fill. -/
theorem rpad_nonpositive_length (g : Graphemes) (s f : Str) (L : Int)
    (hL : L ≤ 0) (hg : (g s).flatten = s) :
    rpad2Row g (some s) (some L) = .ok (some []) ∧
    rpad3Row g (some s) (some L) (some f) = .ok (some []) := by
  have hmax' : ¬ i32Max < L := by simp only [i32Max]; omega
  constructor
  · simp only [rpad2Row]
    rw [if_neg hmax', if_pos (clampLen_of_nonpos hL)]
  · simp only [rpad3Row]
    rw [if_neg hmax', clampLen_of_nonpos hL]
    by_cases hlen : 0 < (g s).length
    · rw [if_pos hlen, List.take_zero, List.flatten_nil]
    · rw [if_neg hlen]
      have hnil : g s = [] := List.length_eq_zero.mp (by omega)
      have hs : s = [] := by have h1 := hg; rw [hnil] at h1; simpa using h1.symm
      by_cases hf : f.isEmpty
      · rw [if_pos hf, hs]
      · rw [if_neg hf]
        simp [hs]

/-- Witness for C8 on `rpad('hi', -3)` and `rpad('hi', -3, 'xy')`. -/
theorem rpad_nonpositive_length_witness :
    (-3:Int) ≤ 0 ∧ (charSeg ['h','i']).flatten = ['h','i'] ∧
    (rpad2Row charSeg (some ['h','i']) (some (-3)) = .ok (some []) ∧
    rpad3Row charSeg (some ['h','i']) (some (-3)) (some ['x','y']) = .ok (some [])) :=
  ⟨by norm_num, by decide,
    rpad_nonpositive_length charSeg ['h','i'] ['x','y'] (-3) (by norm_num) (by decide)⟩

theorem range_map_single (c : Char) (n : Nat) :
    (List.range n).map (fun l => ([c] : Str).getD (l % 1) ' ') = List.replicate n c := by
  simp [Nat.mod_one]

/-- **C9**: for every row — null, error, truncation, zero-length and
padding cases alike — the 2-argument form agrees with the 3-argument form
whose fill is the single-space string, for every genuine grapheme
segmentation. -/
theorem rpad2Row_eq_rpad3Row_space (g : Graphemes) (hg : GraphemesValid g)
    (string : Option Str) (length : Option Int) :
    rpad2Row g string length = rpad3Row g string length (some [' ']) := by
  cases string with
  | none => cases length <;> rfl
  | some s =>
    cases length with
    | none => rfl
    | some L =>
      simp only [rpad2Row, rpad3Row]
      by_cases hmax : i32Max < L
      · rw [if_pos hmax, if_pos hmax]
      · rw [if_neg hmax, if_neg hmax]
        by_cases hz : clampLen L = 0
        · rw [if_pos hz, hz]
          by_cases hlen : 0 < (g s).length
          · rw [if_pos hlen, List.take_zero, List.flatten_nil]
          · rw [if_neg hlen]
            have hnil : g s = [] := List.length_eq_zero.mp (by omega)
            have hs : s = [] := by have h1 := hg s; rw [hnil] at h1; simpa using h1.symm
            rw [if_neg (by simp : ¬ ([' '] : Str).isEmpty = true)]
            simp [hs]
        · rw [if_neg hz]
          by_cases hlt : clampLen L < (g s).length
          · rw [if_pos hlt, if_pos hlt]
          · rw [if_neg hlt, if_neg hlt,
              if_neg (by simp : ¬ ([' '] : Str).isEmpty = true)]
            simp only [List.length_singleton]
            rw [range_map_single]

/-- Witness for C9 on `rpad('hi', 5)` versus `rpad('hi', 5, ' ')`. -/
theorem rpad2Row_eq_rpad3Row_space_witness :
    rpad2Row charSeg (some ['h','i']) (some 5) =
      rpad3Row charSeg (some ['h','i']) (some 5) (some [' ']) :=
  rpad2Row_eq_rpad3Row_space charSeg charSeg_valid (some ['h','i']) (some 5)

theorem collectResults_mem_error {α : Type} (rs : List (Except RpadError α))
    (h : ∃ e, Except.error e ∈ rs) :
    ∃ e', collectResults rs = .error e' ∧ Except.error e' ∈ rs := by
  induction rs with
  | nil => rcases h with ⟨e, he⟩; cases he
  | cons r rest ih =>
    cases r with
    | error e0 => exact ⟨e0, rfl, List.mem_cons_self _ _⟩
    | ok a =>
      rcases h with ⟨e, he⟩
      rcases List.mem_cons.mp he with h1 | h2
      · exact absurd h1 (by simp)
      · rcases ih ⟨e, h2⟩ with ⟨e', hc, hm⟩
        refine ⟨e', ?_, List.mem_cons_of_mem _ hm⟩
        simp only [collectResults]
        rw [hc]
        rfl

theorem rpad2Row_error_elim (g : Graphemes) (os : Option Str) (ol : Option Int)
    (e : RpadError) (h : rpad2Row g os ol = .error e) :
    ∃ s L, os = some s ∧ ol = some L ∧ i32Max < L ∧
      e = .requestedLengthTooLarge L := by
  rcases os with _ | s
  · cases ol <;> simp [rpad2Row] at h
  · rcases ol with _ | L
    · simp [rpad2Row] at h
    · refine ⟨s, L, rfl, rfl, ?_⟩
      by_cases hmax : i32Max < L
      · simp only [rpad2Row, if_pos hmax] at h
        injection h with h'
        exact ⟨hmax, h'.symm⟩
      · exfalso
        rcases rpad2Row_ok_of_le g s L hmax with ⟨r, hr⟩
        rw [h] at hr
        cases hr

theorem rpad3Row_error_elim (g : Graphemes) (os : Option Str) (ol : Option Int)
    (ofl : Option Str) (e : RpadError) (h : rpad3Row g os ol ofl = .error e) :
    ∃ s L f, os = some s ∧ ol = some L ∧ ofl = some f ∧ i32Max < L ∧
      e = .requestedLengthTooLarge L := by
  rcases os with _ | s
  · cases ol <;> cases ofl <;> simp [rpad3Row] at h
  · rcases ol with _ | L
    · cases ofl <;> simp [rpad3Row] at h
    · rcases ofl with _ | f
      · simp [rpad3Row] at h
      · refine ⟨s, L, f, rfl, rfl, rfl, ?_⟩
        by_cases hmax : i32Max < L
        · simp only [rpad3Row, if_pos hmax] at h
          injection h with h'
          exact ⟨hmax, h'.symm⟩
        · exfalso
          rcases rpad3Row_ok_of_le g s f L hmax with ⟨r, hr⟩
          rw [h] at hr
          cases hr

/-- **C2**: if some row of a call has a non-null source (and, 3-argument
form, non-null fill) together with a non-null length exceeding
`i32Max = 2147483647`, the whole call returns a `requestedLengthTooLarge`
error carrying an offending row's length value — the `Except.error`
result carries no partial result column. -/
theorem rpad_length_error_aborts (g : Graphemes) (ss : List (Option Str))
    (ls : List (Option Int)) (fs : List (Option Str)) :
    ((∃ s L, (some s, some L) ∈ ss.zip ls ∧ i32Max < L) →
      ∃ s L, (some s, some L) ∈ ss.zip ls ∧ i32Max < L ∧
        rpad2 g ss ls = .error (.requestedLengthTooLarge L)) ∧
    ((∃ s L f, ((some s, some L), some f) ∈ (ss.zip ls).zip fs ∧ i32Max < L) →
      ∃ s L f, ((some s, some L), some f) ∈ (ss.zip ls).zip fs ∧ i32Max < L ∧
        rpad3 g ss ls fs = .error (.requestedLengthTooLarge L)) := by
  constructor
  · rintro ⟨s, L, hmem, hL⟩
    have herr : Except.error (RpadError.requestedLengthTooLarge L) ∈
        (ss.zip ls).map (fun p => rpad2Row g p.1 p.2) := by
      refine List.mem_map.mpr ⟨(some s, some L), hmem, ?_⟩
      simp only [rpad2Row, if_pos hL]
    rcases collectResults_mem_error _ ⟨_, herr⟩ with ⟨e', hc, hm⟩
    rcases List.mem_map.mp hm with ⟨p, hp, hpe⟩
    rcases rpad2Row_error_elim g p.1 p.2 e' hpe with ⟨s', L', h1, h2, hL', he⟩
    refine ⟨s', L', ?_, hL', ?_⟩
    · rw [← h1, ← h2]
      exact hp
    · unfold rpad2
      rw [hc, he]
  · rintro ⟨s, L, f, hmem, hL⟩
    have herr : Except.error (RpadError.requestedLengthTooLarge L) ∈
        ((ss.zip ls).zip fs).map (fun p => rpad3Row g p.1.1 p.1.2 p.2) := by
      refine List.mem_map.mpr ⟨((some s, some L), some f), hmem, ?_⟩
      simp only [rpad3Row, if_pos hL]
    rcases collectResults_mem_error _ ⟨_, herr⟩ with ⟨e', hc, hm⟩
    rcases List.mem_map.mp hm with ⟨p, hp, hpe⟩
    rcases rpad3Row_error_elim g p.1.1 p.1.2 p.2 e' hpe with ⟨s', L', f', h1, h2, h3, hL', he⟩
    refine ⟨s', L', f', ?_, hL', ?_⟩
    · rw [← h1, ← h2, ← h3]
      exact hp
    · unfold rpad3
      rw [hc, he]

/-- Witness for C2: a one-row call with length `2^31 = 2147483648`. -/
theorem rpad_length_error_aborts_witness :
    (∃ s L, (some s, some L) ∈ ([some ['a']] : List (Option Str)).zip
        ([some 2147483648] : List (Option Int)) ∧ i32Max < L ∧
      rpad2 charSeg [some ['a']] [some 2147483648] =
        .error (.requestedLengthTooLarge L)) ∧
    (∃ s L f, ((some s, some L), some f) ∈
        (([some ['a']] : List (Option Str)).zip
          ([some 2147483648] : List (Option Int))).zip
          ([some ['x']] : List (Option Str)) ∧ i32Max < L ∧
      rpad3 charSeg [some ['a']] [some 2147483648] [some ['x']] =
        .error (.requestedLengthTooLarge L)) :=
  ⟨(rpad_length_error_aborts charSeg [some ['a']] [some 2147483648] [some ['x']]).1
      ⟨['a'], 2147483648, by simp, by norm_num [i32Max]⟩,
   (rpad_length_error_aborts charSeg [some ['a']] [some 2147483648] [some ['x']]).2
      ⟨['a'], 2147483648, ['x'], by simp, by norm_num [i32Max]⟩⟩
